import Mathlib

/-!
Verification of the trainer service of the Bug-Analyser repository
(`src/services/trainer/main.py`).

The service's core is `analyze_with_rules`, a pure rule-based classifier over
free text, plus an environment summarizer and the provider-selection logic in
the `/inference` handler.  This file gives a shallow embedding of those parts:

* Python strings are modelled as Lean `String` (a wrapper of `List Char`);
  the Python string operations used by the source (`in`, `split`, `strip`,
  `lower`, slicing `[:200]`) are re-implemented below on `List Char`.
  `str.lower()` is modelled as ASCII case folding (the source only ever
  compares against ASCII keyword literals).
* Python's fallible list indexing (`line.split('actual:')[1]`, which raises
  `IndexError` when the separator is absent) is modelled with `Except`:
  `analyze_with_rules` returns `Except String SummaryResponse`, and totality
  of the source function is a theorem, not an assumption.
* The two LLM provider calls are external I/O; their network outcomes are
  passed as explicit `Except Unit LLMAnalysis` parameters to the embedding of
  the orchestration logic (`inferenceCore`).
-/

/-- ASCII lowercase table, one pair per uppercase letter, modelling the
effect of Python `str.lower()` on the ASCII range. -/
def lowerPairs : List (Char × Char) :=
  [('A', 'a'), ('B', 'b'), ('C', 'c'), ('D', 'd'), ('E', 'e'), ('F', 'f'),
   ('G', 'g'), ('H', 'h'), ('I', 'i'), ('J', 'j'), ('K', 'k'), ('L', 'l'),
   ('M', 'm'), ('N', 'n'), ('O', 'o'), ('P', 'p'), ('Q', 'q'), ('R', 'r'),
   ('S', 's'), ('T', 't'), ('U', 'u'), ('V', 'v'), ('W', 'w'), ('X', 'x'),
   ('Y', 'y'), ('Z', 'z')]

/-- Lowercase a single character (ASCII model of Python `str.lower()`). -/
def lowerChar (c : Char) : Char :=
  match lowerPairs.find? (fun p => p.1 == c) with
  | some p => p.2
  | none => c

/-- Python `str.lower()` (ASCII model). -/
def pyLower (s : String) : String :=
  ⟨s.data.map lowerChar⟩

/-- Whitespace characters stripped by Python `str.strip()` (ASCII range). -/
def wsChar (c : Char) : Bool :=
  c == ' ' || c == '\t' || c == '\n' || c == '\r' || c == '\x0b' || c == '\x0c'

/-- Python `str.strip()` on a character list: drop whitespace from both ends. -/
def stripL (l : List Char) : List Char :=
  ((l.dropWhile wsChar).reverse.dropWhile wsChar).reverse

/-- Python `str.strip()`. -/
def pyStrip (s : String) : String :=
  ⟨stripL s.data⟩

/-- Python slicing `s[:n]`. -/
def pyTake (n : Nat) (s : String) : String :=
  ⟨s.data.take n⟩

/-- Python substring test `pat in s`, scanning positions left to right. -/
def containsAux (pat : List Char) : List Char → Bool
  | [] => pat.isPrefixOf []
  | c :: rest => pat.isPrefixOf (c :: rest) || containsAux pat rest

/-- Python `pat in s` on strings. -/
def pyContains (s pat : String) : Bool :=
  containsAux pat.data s.data

/-- Python `s.split(pat)` on character lists, with explicit fuel so that the
definition is structurally recursive (the fuel is always at least the length
of the remaining list, see `splitOnFuel_shape`). Splits at each leftmost
non-overlapping occurrence of `pat`. -/
def splitOnFuel (pat : List Char) : Nat → List Char → List (List Char)
  | _, [] => [[]]
  | 0, s => [s]
  | fuel + 1, c :: rest =>
    if pat.isPrefixOf (c :: rest) then
      [] :: splitOnFuel pat fuel (rest.drop (pat.length - 1))
    else
      match splitOnFuel pat fuel rest with
      | [] => [[c]]
      | p :: ps => (c :: p) :: ps

/-- Python `s.split(pat)` on character lists (Python raises `ValueError` on an
empty separator; the source only ever splits on non-empty literals, so the
empty-separator case is given the harmless value `[s]`). -/
def splitOnL (pat s : List Char) : List (List Char) :=
  if pat.isEmpty then [s] else splitOnFuel pat s.length s

/-- Python `s.split(pat)` on strings. -/
def pySplit (s pat : String) : List String :=
  (splitOnL pat.data s.data).map (fun l => ⟨l⟩)

/-- Output record of the classifier: the six-field `SummaryResponse` pydantic
model of the source. -/
structure SummaryResponse where
  environment : String
  actualBehavior : String
  expectedBehavior : String
  bugCategory : String
  rootCause : String
  suggestedSolution : String
deriving DecidableEq, Repr

/-- The five mutable local variables of `analyze_with_rules` after the
pattern-matching step (everything except the copied-in environment). -/
structure RuleOut where
  bug_category : String
  actual_behavior : String
  expected_behavior : String
  root_cause : String
  suggested_solution : String
deriving DecidableEq, Repr

/-- The ordered keyword-rule chain of `analyze_with_rules`
(`main.py` lines 290-373): initial defaults followed by the
`if`/`elif` ladder.  First match wins because the ladder is `elif`-chained. -/
def ruleStep (text : String) : RuleOut :=
  if pyContains text "500" || pyContains text "internal server error" then
    if pyContains text "upload" || pyContains text "entity too large" || pyContains text "file" then
      { bug_category := "server-error",
        actual_behavior := "Server returns 500 Internal Server Error",
        expected_behavior := "Server should handle requests without errors",
        root_cause := "File upload exceeds server-configured maximum size limit. The server\x27s request body size limit is smaller than the uploaded file.",
        suggested_solution := "Increase server file upload limit. In Express: use multer with limits: \x7b fileSize: 10 * 1024 * 1024 \x7d. In nginx: set client_max_body_size 10M; Add proper validation and user-friendly error messages for file size limits." }
    else
      { bug_category := "server-error",
        actual_behavior := "Server returns 500 Internal Server Error",
        expected_behavior := "Server should handle requests without errors",
        root_cause := "Server-side exception thrown during request processing. Likely caused by unhandled error in backend code, database connection failure, or misconfigured middleware.",
        suggested_solution := "Check server logs for the root cause. Add proper error handling and logging. Implement graceful error responses with meaningful messages. Review recent code changes that might have introduced the error." }
  else if pyContains text "404" || pyContains text "not found" then
    { bug_category := "routing-error",
      actual_behavior := "Resource or route not found (404 error)",
      expected_behavior := "All routes should be properly configured",
      root_cause := "Requested route or API endpoint is not registered in the router configuration. Could be caused by typo in URL, missing route definition, or incorrect base path.",
      suggested_solution := "Verify route definitions in your router configuration. Check for typos in URLs. Ensure API endpoints are correctly registered. For SPAs, configure server to redirect all routes to index.html." }
  else if pyContains text "crash" || pyContains text "white screen" || pyContains text "blank screen" then
    if pyContains text "save" || pyContains text "button" then
      { bug_category := "crash",
        actual_behavior := "Application crashes or displays blank/white screen",
        expected_behavior := "Application should remain stable and display content",
        root_cause := "Null or undefined object accessed during save operation. Likely caused by form data not being properly validated or state being accessed before initialization.",
        suggested_solution := "Add null checks: `if (data && data.property)` before accessing. Use optional chaining: `data?.property`. Add error boundaries: wrap components with try-catch. Verify form data is properly validated before saving." }
    else if pyContains text "undefined" || pyContains text "null" || pyContains text "cannot read property" then
      { bug_category := "crash",
        actual_behavior := "Application crashes or displays blank/white screen",
        expected_behavior := "Application should remain stable and display content",
        root_cause := "Attempting to access property on null or undefined object. This happens when component renders before data is loaded, or when an object is not properly initialized in state.",
        suggested_solution := "Fix null/undefined reference. Add defensive checks: `const value = object?.property ?? defaultValue`. Ensure all required data is loaded before component renders. Use PropTypes or TypeScript for type checking." }
    else
      { bug_category := "crash",
        actual_behavior := "Application crashes or displays blank/white screen",
        expected_behavior := "Application should remain stable and display content",
        root_cause := "Unhandled exception thrown in component rendering or event handler. Could be caused by type mismatch, missing dependency, or logic error in recent code changes.",
        suggested_solution := "Add React Error Boundaries to catch crashes. Check browser console for detailed stack trace. Review recent code changes. Add logging to identify the crash point. Ensure all async operations have error handling." }
  else if pyContains text "cannot read property" || pyContains text "undefined" || pyContains text "typeerror" then
    { bug_category := "null-reference",
      actual_behavior := "Attempting to access property of null or undefined object",
      expected_behavior := "All objects should be properly initialized before use",
      root_cause := "Object is null or undefined when property access is attempted. This occurs when data hasn\x27t loaded yet, API response is missing expected fields, or component state is accessed before initialization.",
      suggested_solution := "Add null/undefined checks: `if (obj && obj.property)`. Use optional chaining: `obj?.property`. Provide default values: `const value = obj?.property || defaultValue`. Check that API data is loaded before rendering." }
  else if pyContains text "network" || pyContains text "fetch" || pyContains text "api" || pyContains text "timeout" || pyContains text "cors" then
    { bug_category := "network-error",
      actual_behavior := "Network request fails or times out",
      expected_behavior := "API calls should complete successfully",
      root_cause :=
        if pyContains text "cors" then
          "CORS (Cross-Origin Resource Sharing) policy blocking request from different origin. Server doesn\x27t have proper CORS headers configured to allow requests from the frontend domain."
        else
          "Network request failed due to connectivity issues, server timeout, or incorrect API endpoint URL. Could be caused by server being down, slow network, or malformed request.",
      suggested_solution := "Implement retry logic: `axios.get(url).catch(() => retry())`. Add timeout handling. For CORS: configure server with proper headers: `Access-Control-Allow-Origin`. Check network connectivity and API endpoint availability." }
  else if pyContains text "login" || pyContains text "auth" || pyContains text "authentication" || pyContains text "oauth" then
    { bug_category := "authentication",
      actual_behavior := "Authentication or login process fails",
      expected_behavior := "Users should be able to authenticate successfully",
      root_cause := "Authentication failure caused by invalid credentials, expired tokens, misconfigured OAuth settings, or CORS issues preventing auth cookies from being set. Check token storage and validation logic.",
      suggested_solution := "Verify OAuth credentials and callback URLs. Check token expiration: implement token refresh logic. Ensure secure cookie/session configuration. Review CORS settings for auth endpoints. Check network requests in DevTools." }
  else if pyContains text "ui" || pyContains text "display" || pyContains text "layout" || pyContains text "css" || pyContains text "rendering" then
    { bug_category := "ui-rendering",
      actual_behavior := "UI elements are not displayed or positioned correctly",
      expected_behavior := "UI should render properly across all screen sizes",
      root_cause := "CSS specificity conflict, z-index layering issue, or missing responsive breakpoints causing incorrect rendering. Could also be caused by JavaScript modifying DOM incorrectly.",
      suggested_solution := "Inspect element with browser DevTools. Check for CSS specificity conflicts. Verify z-index layering. Test responsive breakpoints. Clear browser cache. Check for CSS syntax errors in stylesheet." }
  else if pyContains text "performance" || pyContains text "slow" || pyContains text "lag" then
    { bug_category := "performance",
      actual_behavior := "Application responds slowly or exhibits lag",
      expected_behavior := "Application should respond quickly to user interactions",
      root_cause := "Performance bottleneck caused by excessive re-renders, large bundle size, unoptimized images, or inefficient algorithms. Could also be caused by memory leaks or blocking operations on main thread.",
      suggested_solution := "Profile application performance using browser DevTools. Optimize rendering by memoizing components. Implement code splitting and lazy loading. Reduce bundle size and minimize re-renders." }
  else if pyContains text "memory" || pyContains text "leak" then
    { bug_category := "memory-leak",
      actual_behavior := "Memory usage increases over time",
      expected_behavior := "Memory usage should remain stable",
      root_cause := "Memory leak caused by event listeners not being cleaned up, intervals/timeouts not being cleared on unmount, or circular references preventing garbage collection.",
      suggested_solution := "Remove event listeners in cleanup functions. Clear intervals/timeouts when components unmount. Avoid circular references. Use browser memory profiler to identify leaks." }
  else
    { bug_category := "unknown",
      actual_behavior := "Application exhibits unexpected behavior",
      expected_behavior := "Application should function normally",
      root_cause := "Unable to determine root cause from available information",
      suggested_solution := "Please review the error logs and stack trace for more details" }

/-- The line-scanning loop of the extraction override pass
(`main.py` lines 377-381 and 385-389), with the fallible Python indexing
`line.split(pat)[1]` modelled as a checked lookup: `IndexError` becomes
`Except.error`. -/
def extractE (pat cur : String) : List String → Except String String
  | [] => .ok cur
  | line :: rest =>
    if pyContains (pyLower line) pat then
      match (pySplit line pat).get? 1 with
      | some v => .ok (pyTake 200 (pyStrip v))
      | none => .error "IndexError: list index out of range"
    else extractE pat cur rest

/-- Total companion of `extractE`: identical except that the index lookup
defaults to the empty string (a case proved unreachable in
`extractE_eq_ok`). -/
def extractT (pat cur : String) : List String → String
  | [] => cur
  | line :: rest =>
    if pyContains (pyLower line) pat then
      pyTake 200 (pyStrip (((pySplit line pat).get? 1).getD ""))
    else extractT pat cur rest

/-- The rule-based classifier `analyze_with_rules` (`main.py` lines 285-399),
with the fallible list indexing of the override pass surfaced as `Except`:
an `IndexError` raised by the Python code would appear here as
`Except.error`. The overrides run in source order (actual first, then
expected), so an error in the first suppresses the second. -/
def analyze_with_rules (description stacktrace environment : String) :
    Except String SummaryResponse :=
  let text := pyLower (description ++ " " ++ stacktrace)
  let r := ruleStep text
  let actualE :=
    if pyContains text "actual:" || pyContains text "observed:" then
      extractE "actual:" r.actual_behavior (pySplit text "\n")
    else .ok r.actual_behavior
  match actualE with
  | .error m => .error m
  | .ok actual =>
    let expectedE :=
      if pyContains text "expected:" || pyContains text "should:" then
        extractE "expected:" r.expected_behavior (pySplit text "\n")
      else .ok r.expected_behavior
    match expectedE with
    | .error m => .error m
    | .ok expected =>
      .ok { environment := environment,
            actualBehavior := actual,
            expectedBehavior := expected,
            bugCategory := r.bug_category,
            rootCause := r.root_cause,
            suggestedSolution := r.suggested_solution }

/-- Total form of `analyze_with_rules` (the value the source function
returns; `rules_total` proves `analyze_with_rules` always succeeds with
exactly this value). -/
def analyzeRun (description stacktrace environment : String) : SummaryResponse :=
  let text := pyLower (description ++ " " ++ stacktrace)
  let r := ruleStep text
  { environment := environment,
    actualBehavior :=
      if pyContains text "actual:" || pyContains text "observed:" then
        extractT "actual:" r.actual_behavior (pySplit text "\n")
      else r.actual_behavior,
    expectedBehavior :=
      if pyContains text "expected:" || pyContains text "should:" then
        extractT "expected:" r.expected_behavior (pySplit text "\n")
      else r.expected_behavior,
    bugCategory := r.bug_category,
    rootCause := r.root_cause,
    suggestedSolution := r.suggested_solution }

/-- A Python value as it may appear in the `env` mapping of the request
(`env: Optional[Dict[str, Any]]`), together with its truthiness and its
`str()` rendering as used by the f-strings of the source. -/
inductive PyVal where
  | vstr (s : String)
  | vint (n : Int)
  | vbool (b : Bool)
  | vnone
deriving DecidableEq, Repr

/-- Python truthiness of a `PyVal`. -/
def truthyVal : PyVal → Bool
  | .vstr s => s != ""
  | .vint n => n != 0
  | .vbool b => b
  | .vnone => false

/-- Python `str()` of a `PyVal`, as interpolated by the f-strings. -/
def displayVal : PyVal → String
  | .vstr s => s
  | .vint n => toString n
  | .vbool b => if b then "True" else "False"
  | .vnone => "None"

/-- The environment mapping; a Python dict modelled as an association list
with first-match lookup (dict keys are unique, matching lists whose keys
are `Nodup`). -/
abbrev EnvMap := List (String × PyVal)

/-- Python `env.get(key)`: the value at `key`, or `None` when absent. -/
def dictGet (m : EnvMap) (k : String) : PyVal :=
  match m.find? (fun p => p.1 == k) with
  | some p => p.2
  | none => .vnone

/-- The environment summarizer of the `/inference` handler
(`main.py` lines 81-96): `env = input_data.env or \x7b\x7d` followed by the
part-building.  `none` models a `None`/absent mapping. -/
def environmentText (envOpt : Option EnvMap) : String :=
  let env : EnvMap := match envOpt with | none => [] | some m => m
  if env.isEmpty then "No environment information provided"
  else
    let env_parts : List String :=
      (if truthyVal (dictGet env "os") then ["OS: " ++ displayVal (dictGet env "os")] else []) ++
      (if truthyVal (dictGet env "browser") then
        let bv := " " ++ displayVal (dictGet env "browser")
        let bv :=
          if truthyVal (dictGet env "browserVersion") then
            bv ++ " " ++ displayVal (dictGet env "browserVersion")
          else bv
        ["Browser:" ++ bv]
      else [])
    if env_parts.isEmpty then "Environment not specified"
    else String.intercalate ", " env_parts

/-- Fields of the JSON object parsed out of a provider response; `none`
models a field missing from the parsed object. -/
structure LLMAnalysis where
  actualBehavior : Option String
  expectedBehavior : Option String
  bugCategory : Option String
  rootCause : Option String
  suggestedSolution : Option String
deriving DecidableEq, Repr

/-- Construction of a `SummaryResponse` from a parsed provider analysis with
per-field defaults; both adapters build their result this way
(`main.py` lines 201-208 and 271-278). -/
def llmSummary (environment : String) (a : LLMAnalysis) : SummaryResponse :=
  { environment := environment,
    actualBehavior := a.actualBehavior.getD "Unable to determine",
    expectedBehavior := a.expectedBehavior.getD "Unable to determine",
    bugCategory := a.bugCategory.getD "unknown",
    rootCause := a.rootCause.getD "Root cause analysis unavailable",
    suggestedSolution := a.suggestedSolution.getD "Please review the error logs" }

/-- The Gemini adapter `analyze_with_gemini` (`main.py` lines 215-282): the
network call and JSON parse are external I/O, passed in as `outcome`; on
success it builds the summary, on failure it re-raises to its caller. -/
def analyze_with_gemini (environment : String)
    (outcome : Except Unit LLMAnalysis) : Except Unit SummaryResponse :=
  outcome.map (llmSummary environment)

/-- The OpenAI adapter `analyze_with_openai` (`main.py` lines 150-212): on
success it builds the summary; on ANY internal failure it catches and
degrades to `analyze_with_rules` itself (it never raises). -/
def analyze_with_openai (description stacktrace environment : String)
    (outcome : Except Unit LLMAnalysis) : SummaryResponse :=
  match outcome with
  | .ok a => llmSummary environment a
  | .error _ => analyzeRun description stacktrace environment

/-- Python truthiness of `os.getenv(...)`: `None` or the empty string is
falsy. -/
def truthyStr : Option String → Bool
  | none => false
  | some s => s != ""

/-- The provider-selection logic of the `/inference` handler
(`main.py` lines 98-125), returning the summary together with the
`model_name` recorded in the response.  Credentials and the two external
call outcomes are explicit parameters. -/
def inferenceCore (description stacktrace environment_text : String)
    (gemini_api_key openai_api_key : Option String)
    (geminiOutcome openaiOutcome : Except Unit LLMAnalysis) :
    SummaryResponse × String :=
  if truthyStr gemini_api_key then
    match analyze_with_gemini environment_text geminiOutcome with
    | .ok summary => (summary, "gemini-2.0-flash")
    | .error _ =>
      if truthyStr openai_api_key then
        (analyze_with_openai description stacktrace environment_text openaiOutcome,
         "gpt-4o-mini")
      else
        (analyzeRun description stacktrace environment_text, "rule-based-analyzer")
  else if truthyStr openai_api_key then
    (analyze_with_openai description stacktrace environment_text openaiOutcome,
     "gpt-4o-mini")
  else
    (analyzeRun description stacktrace environment_text, "rule-based-analyzer")

/-- Python `x or ""` applied to the optional request fields
(`description = input_data.description or ""`, `main.py` lines 79-80):
`None` and the falsy empty string both yield `""`. -/
def pyOrEmptyStr : Option String → String
  | none => ""
  | some v => if v = "" then "" else v

/-- Modelled from the spec (section on the extraction override, which the
source implements with `line.split(pat)[1]` instead): the substring of
`line` strictly after the FIRST occurrence of `pat`, rebuilt by re-joining
every split field past the first. Used only to state where the spec's
wording and the source diverge. -/
def afterFirstSpec (line pat : String) : String :=
  String.intercalate pat ((pySplit line pat).drop 1)

/-! ## Helper lemmas about the string primitives -/

/-- Every output of the lowercase table is itself lowercase-fixed. -/
theorem lowerChar_fixed_targets :
    ∀ x ∈ lowerPairs.map (fun p => p.2), lowerChar x = x := by decide

/-- ASCII lowercasing is idempotent on characters. -/
theorem lowerChar_idem (c : Char) : lowerChar (lowerChar c) = lowerChar c := by
  have h : lowerChar c = c ∨ lowerChar c ∈ lowerPairs.map (fun p => p.2) := by
    unfold lowerChar
    cases h : lowerPairs.find? (fun p => p.1 == c) with
    | none => exact Or.inl rfl
    | some p => exact Or.inr (List.mem_map.mpr ⟨p, List.mem_of_find?_eq_some h, rfl⟩)
  rcases h with h | h
  · rw [h]
    exact h
  · exact lowerChar_fixed_targets _ h

/-- A character list each of whose members is lowercase-fixed is unchanged by
the lowercasing map. -/
theorem map_lowerChar_fixed {l : List Char} (h : ∀ c ∈ l, lowerChar c = c) :
    l.map lowerChar = l := by
  induction l with
  | nil => rfl
  | cons c cs ih => simp_all

/-- Every result of `splitOnFuel` (at sufficient fuel) is a non-empty list of
pieces; the head piece is a prefix of the input and every piece is a
contiguous segment of the input. -/
theorem splitOnFuel_shape (pat : List Char) :
    ∀ (fuel : Nat) (s : List Char), s.length ≤ fuel →
      ∃ p ps, splitOnFuel pat fuel s = p :: ps ∧ p <+: s ∧ ∀ q ∈ p :: ps, q <:+: s := by
  intro fuel
  induction fuel with
  | zero =>
    intro s hs
    have hnil : s = [] := List.eq_nil_of_length_eq_zero (Nat.le_zero.mp hs)
    subst hnil
    refine ⟨[], [], rfl, List.nil_prefix, ?_⟩
    intro q hq
    have hqn : q = [] := by simpa using hq
    simp [hqn]
  | succ n ih =>
    intro s hs
    match s with
    | [] =>
      refine ⟨[], [], rfl, List.nil_prefix, ?_⟩
      intro q hq
      have hqn : q = [] := by simpa using hq
      simp [hqn]
    | c :: rest =>
      have hr : rest.length ≤ n := by simpa using hs
      by_cases hp : pat.isPrefixOf (c :: rest) = true
      · have hdl : (rest.drop (pat.length - 1)).length ≤ n := by
          calc (rest.drop (pat.length - 1)).length ≤ rest.length := by
                simp [List.length_drop]
            _ ≤ n := hr
        obtain ⟨p, ps, heq, _, hinf⟩ := ih (rest.drop (pat.length - 1)) hdl
        refine ⟨[], p :: ps, ?_, List.nil_prefix, ?_⟩
        · simp only [splitOnFuel]
          rw [if_pos hp, heq]
        · intro q hq
          rcases List.mem_cons.mp hq with hq1 | hq2
          · simp [hq1]
          · have h1 : q <:+: rest.drop (pat.length - 1) := hinf q hq2
            have h2 : rest.drop (pat.length - 1) <:+: rest :=
              (List.drop_suffix _ _).isInfix
            exact List.infix_cons_iff.mpr (Or.inr (h1.trans h2))
      · obtain ⟨p, ps, heq, hpre, hinf⟩ := ih rest hr
        refine ⟨c :: p, ps, ?_, ?_, ?_⟩
        · simp only [splitOnFuel]
          rw [if_neg hp, heq]
        · exact List.cons_prefix_cons.mpr ⟨rfl, hpre⟩
        · intro q hq
          rcases List.mem_cons.mp hq with hq1 | hq2
          · subst hq1
            exact (List.cons_prefix_cons.mpr ⟨rfl, hpre⟩).isInfix
          · exact List.infix_cons_iff.mpr
              (Or.inr (hinf q (List.mem_cons_of_mem _ hq2)))

/-- Every piece produced by `splitOnL` is a contiguous segment of the input. -/
theorem splitOnL_within (pat s : List Char) : ∀ q ∈ splitOnL pat s, q <:+: s := by
  intro q hq
  unfold splitOnL at hq
  by_cases hp : pat.isEmpty = true
  · rw [if_pos hp] at hq
    have hqs : q = s := by simpa using hq
    simp [hqs]
  · rw [if_neg hp] at hq
    obtain ⟨p, ps, heq, _, hinf⟩ := splitOnFuel_shape pat s.length s (le_refl _)
    rw [heq] at hq
    exact hinf q hq

/-- `containsAux` decides segment containment. -/
theorem containsAux_eq_true_iff (pat : List Char) :
    ∀ s, containsAux pat s = true ↔ pat <:+: s := by
  intro s
  induction s with
  | nil => simp [containsAux, List.isPrefixOf_iff_prefix]
  | cons c rest ih =>
    simp [containsAux, List.isPrefixOf_iff_prefix, ih, List.infix_cons_iff]

/-- When the (non-empty) separator occurs in the input, `splitOnFuel`
produces at least two pieces. -/
theorem splitOnFuel_two_le (pat : List Char) (hpat : pat ≠ []) :
    ∀ fuel s, s.length ≤ fuel → containsAux pat s = true →
      2 ≤ (splitOnFuel pat fuel s).length := by
  intro fuel
  induction fuel with
  | zero =>
    intro s hs hc
    have hnil : s = [] := List.eq_nil_of_length_eq_zero (Nat.le_zero.mp hs)
    subst hnil
    have : pat <:+: [] := (containsAux_eq_true_iff pat []).mp hc
    exact absurd (List.infix_nil.mp this) hpat
  | succ n ih =>
    intro s hs hc
    match s with
    | [] =>
      have : pat <:+: [] := (containsAux_eq_true_iff pat []).mp hc
      exact absurd (List.infix_nil.mp this) hpat
    | c :: rest =>
      have hr : rest.length ≤ n := by simpa using hs
      by_cases hp : pat.isPrefixOf (c :: rest) = true
      · have hdl : (rest.drop (pat.length - 1)).length ≤ n := by
          calc (rest.drop (pat.length - 1)).length ≤ rest.length := by
                simp [List.length_drop]
            _ ≤ n := hr
        obtain ⟨p, ps, heq, _, _⟩ := splitOnFuel_shape pat n (rest.drop (pat.length - 1)) hdl
        simp only [splitOnFuel]
        rw [if_pos hp, heq]
        simp
      · have hc2 : containsAux pat rest = true := by
          rw [containsAux] at hc
          rcases Bool.or_eq_true_iff.mp hc with h | h
          · exact absurd h hp
          · exact h
        have h2 := ih rest hr hc2
        obtain ⟨p, ps, heq, _, _⟩ := splitOnFuel_shape pat n rest hr
        simp only [splitOnFuel]
        rw [if_neg hp, heq]
        rw [heq] at h2
        simpa using h2

/-- When the (non-empty) separator occurs in the input, `splitOnL` produces
at least two pieces (so Python `s.split(pat)[1]` cannot raise). -/
theorem splitOnL_two_le (pat s : List Char) (hpat : pat ≠ [])
    (hc : containsAux pat s = true) : 2 ≤ (splitOnL pat s).length := by
  unfold splitOnL
  have hne : pat.isEmpty = false := by
    cases pat with
    | nil => exact absurd rfl hpat
    | cons a as => rfl
  rw [hne]
  simp only [Bool.false_eq_true, if_false]
  exact splitOnFuel_two_le pat hpat s.length s (le_refl _) hc

/-- Every line produced by splitting a string is a contiguous segment of it. -/
theorem mem_pySplit {text pat : String} {l : String} (h : l ∈ pySplit text pat) :
    l.data <:+: text.data := by
  unfold pySplit at h
  obtain ⟨q, hq, hql⟩ := List.mem_map.mp h
  have : l.data = q := by rw [← hql]
  rw [this]
  exact splitOnL_within _ _ q hq

/-- Every line of an already-lowercased text is unchanged by lowercasing
(this is what makes the redundant `line.lower()` of the source a no-op, and
the guarded `line.split(pat)[1]` safe). -/
theorem lines_lower_fixed (t : String) :
    ∀ l ∈ pySplit (pyLower t) "\n", pyLower l = l := by
  intro l hl
  have hinf : l.data <:+: (t.data.map lowerChar) := mem_pySplit hl
  have hfix : ∀ c ∈ l.data, lowerChar c = c := by
    intro c hc
    obtain ⟨c0, _, hc0⟩ := List.mem_map.mp (hinf.subset hc)
    rw [← hc0]
    exact lowerChar_idem c0
  show (⟨l.data.map lowerChar⟩ : String) = l
  rw [map_lowerChar_fixed hfix]

/-- A keyword absent from the whole text is absent from every line of it. -/
theorem lines_not_contain {text pat : String} (h : pyContains text pat = false) :
    ∀ l ∈ pySplit text "\n", pyContains l pat = false := by
  intro l hl
  cases hx : pyContains l pat with
  | false => rfl
  | true =>
    exfalso
    have hinf := mem_pySplit hl
    have htext : pyContains text pat = true :=
      (containsAux_eq_true_iff _ _).mpr
        (((containsAux_eq_true_iff _ _).mp hx).trans hinf)
    rw [htext] at h
    simp at h

/-! ## Helper lemmas about the extraction override pass -/

/-- When no line matches the keyword, the scanning loop leaves the current
value unchanged. -/
theorem extractT_eq_cur (pat cur : String) :
    ∀ lines, (∀ l ∈ lines, pyContains (pyLower l) pat = false) →
      extractT pat cur lines = cur := by
  intro lines
  induction lines with
  | nil => intro _; rfl
  | cons l ls ih =>
    intro h
    have h0 := h l (List.mem_cons_self l ls)
    simp only [extractT, h0, Bool.false_eq_true, if_false]
    exact ih fun x hx => h x (List.mem_cons_of_mem _ hx)

/-- The scanning loop computes the extraction at the FIRST line containing
the keyword, when such a line exists, and the current value otherwise. -/
theorem extractT_eq_find (pat cur : String) :
    ∀ lines, extractT pat cur lines =
      match lines.find? (fun l => pyContains (pyLower l) pat) with
      | some line => pyTake 200 (pyStrip (((pySplit line pat).get? 1).getD ""))
      | none => cur := by
  intro lines
  induction lines with
  | nil => rfl
  | cons l ls ih =>
    cases hx : pyContains (pyLower l) pat with
    | false =>
      simp only [extractT, List.find?_cons, hx, Bool.false_eq_true, if_false]
      exact ih
    | true =>
      simp only [extractT, List.find?_cons, hx, if_true]

/-- On lowercase-fixed lines the checked loop never hits its `IndexError`
case: the guard `pat in line.lower()` guarantees the split has a second
piece. -/
theorem extractE_eq_ok (pat cur : String) (hpat : pat.data ≠ []) :
    ∀ lines, (∀ l ∈ lines, pyLower l = l) →
      extractE pat cur lines = .ok (extractT pat cur lines) := by
  intro lines
  induction lines with
  | nil => intro _; rfl
  | cons l ls ih =>
    intro h
    have hfix := h l (List.mem_cons_self l ls)
    cases hx : pyContains (pyLower l) pat with
    | false =>
      simp only [extractE, extractT, hx, Bool.false_eq_true, if_false]
      exact ih fun x hx2 => h x (List.mem_cons_of_mem _ hx2)
    | true =>
      have hcl : containsAux pat.data l.data = true := by
        rw [hfix] at hx
        exact hx
      have hlen : 2 ≤ (pySplit l pat).length := by
        unfold pySplit
        rw [List.length_map]
        exact splitOnL_two_le pat.data l.data hpat hcl
      cases hg : (pySplit l pat).get? 1 with
      | none =>
        exfalso
        have := List.get?_eq_none.mp hg
        omega
      | some v =>
        simp only [extractE, extractT, hx, if_true, hg, Option.getD_some]

/-- Either override step of `analyze_with_rules` succeeds with the value its
total companion computes. -/
theorem extract_step (pat cur : String) (t : String) (hpat : pat.data ≠ [])
    (cond : Bool) :
    (if cond then extractE pat cur (pySplit (pyLower t) "\n") else .ok cur) =
      Except.ok (if cond then extractT pat cur (pySplit (pyLower t) "\n") else cur) := by
  cases cond with
  | false => rfl
  | true =>
    simp only [if_true]
    exact extractE_eq_ok pat cur hpat _ (lines_lower_fixed t)

/-- The checked classifier always succeeds, returning exactly the value of
its total companion. -/
theorem rules_total_aux (d s e : String) :
    analyze_with_rules d s e = .ok (analyzeRun d s e) := by
  simp only [analyze_with_rules, analyzeRun]
  rw [extract_step "actual:" _ (d ++ " " ++ s) (by decide),
    extract_step "expected:" _ (d ++ " " ++ s) (by decide)]

/-! ## Helper lemmas about the rule chain and the classifier output -/

/-- The `bugCategory` of the classifier output is exactly the category chosen
by the rule chain: the override pass touches only the two behavior fields. -/
theorem analyzeRun_bugCategory (d s e : String) :
    (analyzeRun d s e).bugCategory =
      (ruleStep (pyLower (d ++ " " ++ s))).bug_category := rfl

/-- The `rootCause` of the classifier output is the one chosen by the rule
chain. -/
theorem analyzeRun_rootCause (d s e : String) :
    (analyzeRun d s e).rootCause =
      (ruleStep (pyLower (d ++ " " ++ s))).root_cause := rfl

/-- The `suggestedSolution` of the classifier output is the one chosen by the
rule chain. -/
theorem analyzeRun_suggestedSolution (d s e : String) :
    (analyzeRun d s e).suggestedSolution =
      (ruleStep (pyLower (d ++ " " ++ s))).suggested_solution := rfl

/-- The `environment` of the classifier output is the argument, copied
verbatim. -/
theorem analyzeRun_environment (d s e : String) :
    (analyzeRun d s e).environment = e := rfl

/-- Unfolded form of the `actualBehavior` field: the override runs exactly
when its trigger keywords occur. -/
theorem analyzeRun_actual (d s e : String) :
    (analyzeRun d s e).actualBehavior =
      if (pyContains (pyLower (d ++ " " ++ s)) "actual:" ||
          pyContains (pyLower (d ++ " " ++ s)) "observed:") = true then
        extractT "actual:" (ruleStep (pyLower (d ++ " " ++ s))).actual_behavior
          (pySplit (pyLower (d ++ " " ++ s)) "\n")
      else (ruleStep (pyLower (d ++ " " ++ s))).actual_behavior := rfl

/-- Unfolded form of the `expectedBehavior` field: the override runs exactly
when its trigger keywords occur. -/
theorem analyzeRun_expected (d s e : String) :
    (analyzeRun d s e).expectedBehavior =
      if (pyContains (pyLower (d ++ " " ++ s)) "expected:" ||
          pyContains (pyLower (d ++ " " ++ s)) "should:") = true then
        extractT "expected:" (ruleStep (pyLower (d ++ " " ++ s))).expected_behavior
          (pySplit (pyLower (d ++ " " ++ s)) "\n")
      else (ruleStep (pyLower (d ++ " " ++ s))).expected_behavior := rfl

/-- Rule 1 fires on its keywords: the category is `server-error`, whatever
else the text contains. -/
theorem ruleStep_server_error {text : String}
    (h : (pyContains text "500" || pyContains text "internal server error") = true) :
    (ruleStep text).bug_category = "server-error" := by
  unfold ruleStep
  rw [if_pos h]
  by_cases h2 : (pyContains text "upload" || pyContains text "entity too large" ||
      pyContains text "file") = true
  · rw [if_pos h2]
  · rw [if_neg h2]

/-- The rule chain only ever produces one of the nine fixed categories or
the default `unknown`. -/
theorem ruleStep_category_mem (text : String) :
    (ruleStep text).bug_category ∈
      (["server-error", "routing-error", "crash", "null-reference", "network-error",
        "authentication", "ui-rendering", "performance", "memory-leak", "unknown"] :
        List String) := by
  unfold ruleStep
  repeat first | decide | split

/-- Every field the rule chain produces is a non-empty literal. -/
theorem ruleStep_fields_ne (text : String) :
    (ruleStep text).bug_category ≠ "" ∧ (ruleStep text).actual_behavior ≠ "" ∧
    (ruleStep text).expected_behavior ≠ "" ∧ (ruleStep text).root_cause ≠ "" ∧
    (ruleStep text).suggested_solution ≠ "" := by
  unfold ruleStep
  repeat first | decide | split

/-- A present, non-empty environment mapping with no truthy recognized key
summarizes to the `Environment not specified` sentinel. -/
theorem envText_not_specified_aux {m : EnvMap} (hne : m ≠ [])
    (hos : truthyVal (dictGet m "os") = false)
    (hbr : truthyVal (dictGet m "browser") = false) :
    environmentText (some m) = "Environment not specified" := by
  have hemp : m.isEmpty = false := by
    cases m with
    | nil => exact absurd rfl hne
    | cons p rest => rfl
  simp [environmentText, hemp, hos, hbr]

/-! ## Claim theorems -/

/-- C1 (corrected): the environment summarizer maps BOTH an absent mapping
and a present-but-empty mapping to the sentinel
`No environment information provided` (because `env = input_data.env or \x7b\x7d`
followed by `if env:` treats the empty dict like `None`); the sentinel
`Environment not specified` is produced exactly by a present, non-empty
mapping none of whose recognized keys `os`/`browser` holds a truthy value. -/
theorem environment_sentinels :
    environmentText none = "No environment information provided" ∧
    environmentText (some []) = "No environment information provided" ∧
    ∀ m : EnvMap, m ≠ [] → (m.map Prod.fst).Nodup →
      truthyVal (dictGet m "os") = false → truthyVal (dictGet m "browser") = false →
      environmentText (some m) = "Environment not specified" := by
  refine ⟨rfl, rfl, ?_⟩
  intro m hne _ hos hbr
  exact envText_not_specified_aux hne hos hbr

/-- C1 witness: a concrete present, non-empty mapping with a falsy `os`
value summarizes to `Environment not specified`. -/
theorem environment_sentinels_witness :
    environmentText (some [("os", PyVal.vstr "")]) = "Environment not specified" :=
  environment_sentinels.2.2 [("os", PyVal.vstr "")] (by decide) (by decide)
    (by decide) (by decide)

/-- C1 counterexample: the empty mapping yields
`No environment information provided`, not the `Environment not specified`
sentinel the claim asserts for it. -/
theorem environment_empty_counterexample :
    environmentText (some ([] : EnvMap)) = "No environment information provided" ∧
    environmentText (some ([] : EnvMap)) ≠ "Environment not specified" :=
  ⟨rfl, by decide⟩

/-- C10: in the environment summarizer a recognized key holding a falsy
value (empty string, zero, `False`, `None`) contributes no part: every
non-empty mapping in which neither `os` nor `browser` holds a truthy value
summarizes to `Environment not specified`. -/
theorem falsy_env_values_ignored (m : EnvMap) (hne : m ≠ [])
    (_hnd : (m.map Prod.fst).Nodup)
    (hos : truthyVal (dictGet m "os") = false)
    (hbr : truthyVal (dictGet m "browser") = false) :
    environmentText (some m) = "Environment not specified" :=
  envText_not_specified_aux hne hos hbr

/-- C10 witness: a mapping with falsy values under both recognized keys. -/
theorem falsy_env_values_ignored_witness :
    environmentText (some [("browser", PyVal.vstr ""), ("os", PyVal.vnone)]) =
      "Environment not specified" :=
  falsy_env_values_ignored [("browser", PyVal.vstr ""), ("os", PyVal.vnone)]
    (by decide) (by decide) (by decide) (by decide)

/-- C2: rule matching is first-match-wins over the ordered rule table: any
text (lowercased concatenation of description and stack trace) containing a
rule-1 keyword (`500` or `internal server error`) and a rule-3 keyword
(`crash`, `white screen` or `blank screen`) is classified `server-error`,
rule 3 never being reached. -/
theorem first_match_wins_server_error (d s e : String)
    (h1 : (pyContains (pyLower (d ++ " " ++ s)) "500" ||
           pyContains (pyLower (d ++ " " ++ s)) "internal server error") = true)
    (_h3 : (pyContains (pyLower (d ++ " " ++ s)) "crash" ||
           pyContains (pyLower (d ++ " " ++ s)) "white screen" ||
           pyContains (pyLower (d ++ " " ++ s)) "blank screen") = true) :
    (analyzeRun d s e).bugCategory = "server-error" := by
  rw [analyzeRun_bugCategory]
  exact ruleStep_server_error h1

/-- C2 witness: a concrete report matching both rule 1 and rule 3 is
classified `server-error`. -/
theorem first_match_wins_witness :
    (analyzeRun "Crash with 500 error" "" "env").bugCategory = "server-error" :=
  first_match_wins_server_error "Crash with 500 error" "" "env" (by decide) (by decide)

/-- C3: for every input, the `bugCategory` of the rule-based classifier is a
member of the fixed enumerated category set together with `unknown`. -/
theorem bugCategory_enumerated (d s e : String) :
    (analyzeRun d s e).bugCategory ∈
      (["server-error", "routing-error", "crash", "null-reference", "network-error",
        "authentication", "ui-rendering", "performance", "memory-leak", "unknown"] :
        List String) := by
  rw [analyzeRun_bugCategory]
  exact ruleStep_category_mem _

/-- C4 (corrected): `environment` always equals the environment-summary
argument, and `bugCategory`, `rootCause` and `suggestedSolution` are always
non-empty; `actualBehavior` (resp. `expectedBehavior`) can be empty ONLY
when the text contains an extraction trigger `actual:`/`observed:`
(resp. `expected:`/`should:`) and the override replaced the rule-provided
value with an empty extracted remainder. -/
theorem fields_populated (d s e : String) :
    (analyzeRun d s e).environment = e ∧
    (analyzeRun d s e).bugCategory ≠ "" ∧
    (analyzeRun d s e).rootCause ≠ "" ∧
    (analyzeRun d s e).suggestedSolution ≠ "" ∧
    ((analyzeRun d s e).actualBehavior = "" →
      (pyContains (pyLower (d ++ " " ++ s)) "actual:" ||
       pyContains (pyLower (d ++ " " ++ s)) "observed:") = true) ∧
    ((analyzeRun d s e).expectedBehavior = "" →
      (pyContains (pyLower (d ++ " " ++ s)) "expected:" ||
       pyContains (pyLower (d ++ " " ++ s)) "should:") = true) := by
  obtain ⟨h1, h2, h3, h4, h5⟩ := ruleStep_fields_ne (pyLower (d ++ " " ++ s))
  refine ⟨analyzeRun_environment d s e, ?_, ?_, ?_, ?_, ?_⟩
  · rw [analyzeRun_bugCategory]
    exact h1
  · rw [analyzeRun_rootCause]
    exact h4
  · rw [analyzeRun_suggestedSolution]
    exact h5
  · intro hemp
    by_cases hc : (pyContains (pyLower (d ++ " " ++ s)) "actual:" ||
        pyContains (pyLower (d ++ " " ++ s)) "observed:") = true
    · exact hc
    · exfalso
      rw [analyzeRun_actual, if_neg hc] at hemp
      exact h2 hemp
  · intro hemp
    by_cases hc : (pyContains (pyLower (d ++ " " ++ s)) "expected:" ||
        pyContains (pyLower (d ++ " " ++ s)) "should:") = true
    · exact hc
    · exfalso
      rw [analyzeRun_expected, if_neg hc] at hemp
      exact h3 hemp

/-- C4 witness: concrete instance, with the `actualBehavior` implication
discharged at an input where the override really does produce the empty
string. -/
theorem fields_populated_witness :
    (analyzeRun "actual:" "" "env").bugCategory ≠ "" ∧
    (pyContains (pyLower ("actual:" ++ " " ++ "")) "actual:" ||
     pyContains (pyLower ("actual:" ++ " " ++ "")) "observed:") = true :=
  ⟨(fields_populated "actual:" "" "env").2.1,
   (fields_populated "actual:" "" "env").2.2.2.2.1 (by decide)⟩

/-- C4 counterexample: the report whose description is just `Actual:` gets
an EMPTY `actualBehavior` (the override extracts the empty remainder), so
not all six fields are always non-empty. -/
theorem fields_populated_counterexample :
    (analyzeRun "Actual:" "" "Env").actualBehavior = "" := by decide

/-- C5 (corrected): when the trigger `actual:`/`observed:` occurs in the
lowercased text, `actualBehavior` is computed from the FIRST line containing
`actual:`: the segment of that line strictly between the first occurrence of
`actual:` and the next occurrence on the same line (to the end of the line
when it occurs once), trimmed and truncated to 200 characters; when no line
contains `actual:` (trigger was `observed:` alone), the rule value stays. -/
theorem actual_override (d s e : String)
    (h : (pyContains (pyLower (d ++ " " ++ s)) "actual:" ||
          pyContains (pyLower (d ++ " " ++ s)) "observed:") = true) :
    (analyzeRun d s e).actualBehavior =
      match (pySplit (pyLower (d ++ " " ++ s)) "\n").find?
          (fun l => pyContains (pyLower l) "actual:") with
      | some line => pyTake 200 (pyStrip (((pySplit line "actual:").get? 1).getD ""))
      | none => (ruleStep (pyLower (d ++ " " ++ s))).actual_behavior := by
  rw [analyzeRun_actual, if_pos h, extractT_eq_find]

/-- C5 witness: the spec's own example, a line `Actual: page crashes`, sets
`actualBehavior` to `page crashes` although rule 3 (`crash`) matched. -/
theorem actual_override_witness :
    (analyzeRun "Actual: page crashes" "" "env").actualBehavior = "page crashes" :=
  (actual_override "Actual: page crashes" "" "env" (by decide)).trans (by decide)

/-- C5 counterexample: on a line containing `actual:` twice the code takes
the segment BETWEEN the first two occurrences (`foo`), while the claim's
"substring after the first occurrence" would be `foo actual: bar`. -/
theorem actual_override_counterexample :
    (analyzeRun "Actual: foo Actual: bar" "" "env").actualBehavior = "foo" ∧
    pyTake 200 (pyStrip (afterFirstSpec "actual: foo actual: bar " "actual:")) =
      "foo actual: bar" ∧
    ("foo" : String) ≠ "foo actual: bar" :=
  ⟨by decide, by decide, by decide⟩

/-- C6: a text containing the trigger `should:` but no `expected:` anywhere
leaves `expectedBehavior` at its rule-provided (or default) value: `should:`
opens the override pass but only `expected:` lines are ever extracted. -/
theorem should_trigger_no_extraction (d s e : String)
    (h1 : pyContains (pyLower (d ++ " " ++ s)) "should:" = true)
    (h2 : pyContains (pyLower (d ++ " " ++ s)) "expected:" = false) :
    (analyzeRun d s e).expectedBehavior =
      (ruleStep (pyLower (d ++ " " ++ s))).expected_behavior := by
  rw [analyzeRun_expected, if_pos (by simp [h1, h2])]
  apply extractT_eq_cur
  intro l hl
  rw [lines_lower_fixed (d ++ " " ++ s) l hl]
  exact lines_not_contain h2 l hl

/-- C6 witness: a concrete `should:` report keeps the default
`expectedBehavior`. -/
theorem should_trigger_no_extraction_witness :
    (analyzeRun "should: work" "" "env").expectedBehavior =
      "Application should function normally" :=
  (should_trigger_no_extraction "should: work" "" "env" (by decide) (by decide)).trans
    (by decide)

/-- C7 (corrected): `model.name` records which ORCHESTRATOR path returned:
when no provider credential is configured the result is the rule-based
summary labelled exactly `rule-based-analyzer`, and conversely whenever the
label is `rule-based-analyzer` the summary is the rule-based classifier's
output.  (The OpenAI adapter's internal fallback keeps the label
`gpt-4o-mini` even though the classifier produced the summary, so the
label does not track every summary the classifier produced.) -/
theorem model_name_paths (d s e : String) (gKey oKey : Option String)
    (gOut oOut : Except Unit LLMAnalysis) :
    (truthyStr gKey = false → truthyStr oKey = false →
      inferenceCore d s e gKey oKey gOut oOut =
        (analyzeRun d s e, "rule-based-analyzer")) ∧
    ((inferenceCore d s e gKey oKey gOut oOut).2 = "rule-based-analyzer" →
      (inferenceCore d s e gKey oKey gOut oOut).1 = analyzeRun d s e) := by
  by_cases hg : truthyStr gKey = true
  · cases hgo : analyze_with_gemini e gOut with
    | ok summary => simp [inferenceCore, hg, hgo]
    | error u =>
      by_cases ho : truthyStr oKey = true
      · simp [inferenceCore, hg, hgo, ho]
      · simp [inferenceCore, hg, hgo, ho]
  · by_cases ho : truthyStr oKey = true
    · simp [inferenceCore, hg, ho]
    · simp [inferenceCore, hg, ho]

/-- C7 witness: with no credential configured, the result is the rule-based
summary labelled `rule-based-analyzer`. -/
theorem model_name_paths_witness :
    inferenceCore "d" "" "e" none none (Except.error ()) (Except.error ()) =
      (analyzeRun "d" "" "e", "rule-based-analyzer") :=
  (model_name_paths "d" "" "e" none none (Except.error ()) (Except.error ())).1 rfl rfl

/-- C7 counterexample: with only an OpenAI credential and a failing OpenAI
call, the adapter falls back internally to the rule-based classifier, yet
the recorded model name is `gpt-4o-mini`, not `rule-based-analyzer`. -/
theorem model_name_counterexample :
    inferenceCore "boom" "" "e" none (some "key") (Except.error ()) (Except.error ()) =
      (analyzeRun "boom" "" "e", "gpt-4o-mini") ∧
    ("gpt-4o-mini" : String) ≠ "rule-based-analyzer" :=
  ⟨rfl, by decide⟩

/-- C8: the classifier is total: for every input, with absent (`None`)
description or stack-trace fields normalized to empty strings as the handler
does, the checked embedding of `analyze_with_rules` (whose `Except.error`
case is Python's reachable-in-principle `IndexError`) always returns
`Except.ok` with a fully-populated `SummaryResponse`. -/
theorem rules_never_raise (d s : Option String) (e : String) :
    analyze_with_rules (pyOrEmptyStr d) (pyOrEmptyStr s) e =
      Except.ok (analyzeRun (pyOrEmptyStr d) (pyOrEmptyStr s) e) :=
  rules_total_aux (pyOrEmptyStr d) (pyOrEmptyStr s) e

/-- C9: the classifier is deterministic with no hidden state: the embedding
is a pure function of its three string arguments (the source function reads
no globals, no environment variables and no clock), so identical arguments
give byte-identical outputs. -/
theorem rules_deterministic (d1 s1 e1 d2 s2 e2 : String)
    (hd : d1 = d2) (hs : s1 = s2) (he : e1 = e2) :
    analyze_with_rules d1 s1 e1 = analyze_with_rules d2 s2 e2 := by
  rw [hd, hs, he]

/-- C9 witness: two calls at one concrete input agree. -/
theorem rules_deterministic_witness :
    analyze_with_rules "crash on save" "trace" "env" =
      analyze_with_rules "crash on save" "trace" "env" :=
  rules_deterministic "crash on save" "trace" "env" "crash on save" "trace" "env"
    rfl rfl rfl
